import Mathlib

/-!
Shallow embedding of the nanoreth consensus, transaction-signing and block-execution
code that the claims concern, together with theorems settling each claim.

Sources embedded:
* `src/crates/primitives-traits/src/transaction/signed.rs` (impersonated-transaction
  sender attribution and signer recovery),
* `src/crates/ethereum/consensus/src/lib.rs` (header validation),
* `src/crates/ethereum/evm/src/execute.rs` (per-transaction execution, gas accounting,
  DAO irregular state change),
* `src/crates/rpc/rpc-types-compat/src/block.rs` (RPC block conversion filters).

Machine integers (`u64`, `u128`, `U256`) are modelled as `Nat`; all the embedded
operations on them (comparisons, addition, integer division, reduction modulo `2^160`)
coincide with the Rust semantics on the value ranges involved, as no wrap-around paths
are exercised by the embedded code.  Hashes and addresses are modelled as the natural
numbers their bytes denote.  The abstract EVM capability (`transact`) and the ECDSA
recovery primitives are modelled as explicit function parameters, matching the spec's
treatment of both as external capabilities.
-/

/-- Propositional equality of `Except` values is decidable once it is on both
components; needed to evaluate the embedded fallible functions on concrete inputs. -/
instance {ε α : Type} [DecidableEq ε] [DecidableEq α] : DecidableEq (Except ε α) :=
  fun x y =>
    match x, y with
    | .error a, .error b =>
      match decEq a b with
      | .isTrue h => .isTrue (congrArg Except.error h)
      | .isFalse h => .isFalse (fun hc => h (Except.error.inj hc))
    | .error _, .ok _ => .isFalse (fun hc => Except.noConfusion hc)
    | .ok _, .error _ => .isFalse (fun hc => Except.noConfusion hc)
    | .ok a, .ok b =>
      match decEq a b with
      | .isTrue h => .isTrue (congrArg Except.ok h)
      | .isFalse h => .isFalse (fun hc => h (Except.ok.inj hc))

namespace Nanoreth

/-- A `PrimitiveSignature`: `r` and `s` are 256-bit words, `v` the y-parity flag. -/
structure Signature where
  r : ℕ
  s : ℕ
  v : Bool
  deriving DecidableEq

/-- `NATIVE_TOKEN_SYSTEM_ADDRESS` from `signed.rs`: the Hyperliquid system "from" address
`0x2222222222222222222222222222222222222222`. -/
def NATIVE_TOKEN_SYSTEM_ADDRESS : ℕ := 0x2222222222222222222222222222222222222222

/-- `2^160`, the modulus used by `reduce_mod(U160::MAX + 1)` in `is_impersonated_tx`. -/
def U160_MOD : ℕ := 2 ^ 160

/-- Embedding of `is_impersonated_tx` (`signed.rs` lines 27-41): if `r == 1`, the parity
flag is set and the declared gas price is zero, the transaction is impersonated; its
attributed sender is `NATIVE_TOKEN_SYSTEM_ADDRESS` when `s == 1`, and otherwise the low
160 bits of `s` (reduced modulo `2^160`). -/
def is_impersonated_tx (signature : Signature) (gas_price : Option ℕ) : Option ℕ :=
  if signature.r = 1 ∧ signature.v = true ∧ gas_price = some 0 then
    if signature.s = 1 then
      some NATIVE_TOKEN_SYSTEM_ADDRESS
    else
      some (signature.s % U160_MOD)
  else
    none

/-- `MINIMUM_GAS_LIMIT` (reth_primitives_traits constant): 5000. -/
def MINIMUM_GAS_LIMIT : ℕ := 5000

/-- `GAS_LIMIT_BOUND_DIVISOR` (alloy_eips eip1559 constant): 1024. -/
def GAS_LIMIT_BOUND_DIVISOR : ℕ := 1024

/-- `MAXIMUM_EXTRA_DATA_SIZE`: 32 bytes. -/
def MAXIMUM_EXTRA_DATA_SIZE : ℕ := 32

/-- `ALLOWED_FUTURE_BLOCK_TIME_SECONDS` (alloy_eips merge constant): 15. -/
def ALLOWED_FUTURE_BLOCK_TIME_SECONDS : ℕ := 15

/-- `EMPTY_OMMER_ROOT_HASH`: keccak256 of the RLP of the empty ommer list. -/
def EMPTY_OMMER_ROOT_HASH : ℕ :=
  0x1dcc4de8dec75d7aab85b567b6ccd41ad312451b948a7413f0a142fd40d49347

/-- The `ConsensusError` variants reachable from the embedded validation code. -/
inductive ConsensusError where
  | GasLimitInvalidMinimum (child_gas_limit : ℕ)
  | GasLimitInvalidIncrease (parent_gas_limit : ℕ) (child_gas_limit : ℕ)
  | GasLimitInvalidDecrease (parent_gas_limit : ℕ) (child_gas_limit : ℕ)
  | WithdrawalsRootMissing
  | WithdrawalsRootUnexpected
  | BlobGasUsedUnexpected
  | ExcessBlobGasUnexpected
  | ParentBeaconBlockRootUnexpected
  | BlobGasUsedMissing
  | ExcessBlobGasMissing
  | ParentBeaconBlockRootMissing
  | RequestsHashMissing
  | RequestsHashUnexpected
  | TheMergeDifficultyIsNotZero
  | TheMergeNonceIsNotZero
  | TheMergeOmmerRootIsNotEmpty
  | TimestampIsInFuture (timestamp : ℕ) (present_timestamp : ℕ)
  | HeaderGasUsedExceedsGasLimit (gas_used : ℕ) (gas_limit : ℕ)
  | BaseFeeMissing
  | ExtraDataExceedsMax (len : ℕ)
  deriving DecidableEq

/-- The header fields read by the embedded validation code. -/
structure Header where
  number : ℕ
  timestamp : ℕ
  gas_limit : ℕ
  gas_used : ℕ
  difficulty : ℕ
  nonce : Option ℕ
  ommers_hash : ℕ
  extra_data_len : ℕ
  base_fee_per_gas : Option ℕ
  withdrawals_root : Option ℕ
  blob_gas_used : Option ℕ
  excess_blob_gas : Option ℕ
  parent_beacon_block_root : Option ℕ
  requests_hash : Option ℕ
  deriving DecidableEq

/-- A header with every optional field absent and every numeric field zero; concrete
headers are written by overriding the relevant fields. -/
def baseHeader : Header where
  number := 0
  timestamp := 0
  gas_limit := 0
  gas_used := 0
  difficulty := 0
  nonce := none
  ommers_hash := 0
  extra_data_len := 0
  base_fee_per_gas := none
  withdrawals_root := none
  blob_gas_used := none
  excess_blob_gas := none
  parent_beacon_block_root := none
  requests_hash := none

/-- The `ChainSpec` query surface used by the embedded code: fork-activation predicates,
queried and never mutated. -/
structure ChainSpec where
  is_shanghai_active_at_timestamp : ℕ → Bool
  is_cancun_active_at_timestamp : ℕ → Bool
  is_prague_active_at_timestamp : ℕ → Bool
  is_london_active_at_block : ℕ → Bool
  is_paris_active_at_block : ℕ → Option Bool
  dao_transitions_at_block : ℕ → Bool

/-- Embedding of `EthBeaconConsensus::validate_against_parent_gas_limit`
(`consensus/src/lib.rs` lines 49-62): the check rejects only a child gas limit below
`MINIMUM_GAS_LIMIT`; no comparison with the parent's gas limit is performed (the
`_parent` argument is unused in the source). -/
def validate_against_parent_gas_limit (header : Header) (_parent : Header) :
    Except ConsensusError Unit :=
  if header.gas_limit < MINIMUM_GAS_LIMIT then
    .error (.GasLimitInvalidMinimum header.gas_limit)
  else
    .ok ()

/-- The gas-limit rule as the spec states it (spec section 8, "Gas-limit rule"): valid
iff `C ≥ MINIMUM_GAS_LIMIT` and `|C − P| ≤ P / D`, rejected with the specific
increase/decrease error carrying exact `P, C` otherwise.  Written from the spec's words
for comparison with `validate_against_parent_gas_limit`, which embeds the source. -/
def spec_gas_limit_rule (parent_gas_limit child_gas_limit : ℕ) :
    Except ConsensusError Unit :=
  if child_gas_limit < MINIMUM_GAS_LIMIT then
    .error (.GasLimitInvalidMinimum child_gas_limit)
  else if child_gas_limit > parent_gas_limit + parent_gas_limit / GAS_LIMIT_BOUND_DIVISOR then
    .error (.GasLimitInvalidIncrease parent_gas_limit child_gas_limit)
  else if child_gas_limit + parent_gas_limit / GAS_LIMIT_BOUND_DIVISOR < parent_gas_limit then
    .error (.GasLimitInvalidDecrease parent_gas_limit child_gas_limit)
  else
    .ok ()

/-- Modelled from the spec: `validate_header_gas` lives in `reth_consensus_common`,
which is not under `src/`; the spec (section 4.1) rejects a header whose gas fields are
structurally malformed, i.e. whose gas used exceeds its gas limit. -/
def validate_header_gas (h : Header) : Except ConsensusError Unit :=
  if h.gas_used > h.gas_limit then
    .error (.HeaderGasUsedExceedsGasLimit h.gas_used h.gas_limit)
  else
    .ok ()

/-- Modelled from the spec: `validate_header_base_fee` lives in `reth_consensus_common`,
which is not under `src/`; the spec (section 4.1) rejects a header whose base fee is
structurally malformed, i.e. absent once the fee-market fork is active. -/
def validate_header_base_fee (h : Header) (spec : ChainSpec) : Except ConsensusError Unit :=
  if spec.is_london_active_at_block h.number && h.base_fee_per_gas.isNone then
    .error .BaseFeeMissing
  else
    .ok ()

/-- Modelled from the spec: `validate_4844_header_standalone` lives in
`reth_consensus_common`, which is not under `src/`; the spec (section 4.1) requires the
blob fields and the parent-beacon-root to be present once the blob fork is active. -/
def validate_4844_header_standalone (h : Header) : Except ConsensusError Unit :=
  if h.blob_gas_used.isNone then
    .error .BlobGasUsedMissing
  else if h.excess_blob_gas.isNone then
    .error .ExcessBlobGasMissing
  else if h.parent_beacon_block_root.isNone then
    .error .ParentBeaconBlockRootMissing
  else
    .ok ()

/-- Modelled from the spec: `validate_header_extra_data` lives in
`reth_consensus_common`, which is not under `src/`; the spec (section 4.1) rejects a
header whose extra-data exceeds the protocol size limit. -/
def validate_header_extra_data (h : Header) : Except ConsensusError Unit :=
  if h.extra_data_len > MAXIMUM_EXTRA_DATA_SIZE then
    .error (.ExtraDataExceedsMax h.extra_data_len)
  else
    .ok ()

/-- The fork-gated blob-field checks of `validate_header` (`consensus/src/lib.rs` lines
119-128): `validate_4844_header_standalone` once Cancun is active, otherwise each blob
field present is an error. -/
def validate_header_blob_fields (spec : ChainSpec) (h : Header) : Except ConsensusError Unit :=
  if spec.is_cancun_active_at_timestamp h.timestamp then
    validate_4844_header_standalone h
  else if h.blob_gas_used.isSome then
    .error .BlobGasUsedUnexpected
  else if h.excess_blob_gas.isSome then
    .error .ExcessBlobGasUnexpected
  else if h.parent_beacon_block_root.isSome then
    .error .ParentBeaconBlockRootUnexpected
  else
    .ok ()

/-- The fork-gated requests-hash checks of `validate_header` (`consensus/src/lib.rs`
lines 130-136). -/
def validate_header_requests_hash (spec : ChainSpec) (h : Header) :
    Except ConsensusError Unit :=
  if spec.is_prague_active_at_timestamp h.timestamp then
    if h.requests_hash.isNone then .error .RequestsHashMissing else .ok ()
  else if h.requests_hash.isSome then
    .error .RequestsHashUnexpected
  else
    .ok ()

/-- Embedding of `EthBeaconConsensus::validate_header` (`consensus/src/lib.rs` lines
104-139): gas check, base-fee check, the EIP-4895 withdrawals-root rule, the blob-field
rules and the requests-hash rules, fail-fast in source order. -/
def validate_header (spec : ChainSpec) (h : Header) : Except ConsensusError Unit :=
  match validate_header_gas h with
  | .error e => .error e
  | .ok _ =>
    match validate_header_base_fee h spec with
    | .error e => .error e
    | .ok _ =>
      if spec.is_shanghai_active_at_timestamp h.timestamp && h.withdrawals_root.isNone then
        .error .WithdrawalsRootMissing
      else if !spec.is_shanghai_active_at_timestamp h.timestamp && h.withdrawals_root.isSome then
        .error .WithdrawalsRootUnexpected
      else
        match validate_header_blob_fields spec h with
        | .error e => .error e
        | .ok _ => validate_header_requests_hash spec h

/-- The `is_post_merge` test of `validate_header_with_total_difficulty`
(`consensus/src/lib.rs` lines 173-174): `is_paris_active_at_block(number)`
`.is_some_and(|active| active)`. -/
def is_post_merge (spec : ChainSpec) (h : Header) : Bool :=
  match spec.is_paris_active_at_block h.number with
  | some active => active
  | none => false

/-- Embedding of `EthBeaconConsensus::validate_header_with_total_difficulty`
(`consensus/src/lib.rs` lines 168-222).  The pre-merge branch reads the system clock;
that clock value is passed in as `present_timestamp`. -/
def validate_header_with_total_difficulty (spec : ChainSpec) (h : Header)
    (present_timestamp : ℕ) : Except ConsensusError Unit :=
  if is_post_merge spec h then
    if h.difficulty ≠ 0 then
      .error .TheMergeDifficultyIsNotZero
    else if !(match h.nonce with | some nonce => nonce = 0 | none => false : Bool) then
      .error .TheMergeNonceIsNotZero
    else if h.ommers_hash ≠ EMPTY_OMMER_ROOT_HASH then
      .error .TheMergeOmmerRootIsNotEmpty
    else
      validate_header_extra_data h
  else
    if h.timestamp > present_timestamp + ALLOWED_FUTURE_BLOCK_TIME_SECONDS then
      .error (.TimestampIsInFuture h.timestamp present_timestamp)
    else
      validate_header_extra_data h

/-- The transaction fields read by `execute_transaction` and the RPC block conversions:
signature, declared gas price, gas limit, hash and type tag. -/
structure Transaction where
  signature : Signature
  gas_price : Option ℕ
  gas_limit : ℕ
  tx_hash : ℕ
  tx_type : ℕ
  deriving DecidableEq

/-- The outcome the abstract EVM capability reports for one executed transaction:
gas used, success flag and logs (logs kept abstract as numbers). -/
structure EvmOutcome where
  gas_used : ℕ
  success : Bool
  logs : List ℕ
  deriving DecidableEq

/-- `Receipt { tx_type, success, cumulative_gas_used, logs }` as pushed by
`execute_transaction` (`execute.rs` lines 260-267). -/
structure Receipt where
  tx_type : ℕ
  success : Bool
  cumulative_gas_used : ℕ
  logs : List ℕ
  deriving DecidableEq

/-- The `BlockExecutionError` variants reachable from the embedded execution code. -/
inductive BlockExecutionError where
  | TransactionGasLimitMoreThanAvailableBlockGas
      (transaction_gas_limit : ℕ) (block_available_gas : ℕ)
  | evm (hash : ℕ)
  deriving DecidableEq

/-- The mutable accumulator of `EthExecutionStrategy` threaded through the transaction
loop: the receipts pushed so far and the running `gas_used` counter. -/
structure ExecState where
  gas_used : ℕ
  receipts : List Receipt
  deriving DecidableEq

/-- The hash of the one transaction subject to the hard-coded gas-used hotfix in
`execute_transaction` (`execute.rs` lines 253-257). -/
def HOTFIX_TX_HASH : ℕ :=
  0xba3e0422720a7f9ac6ae0fee5097e7c5d46090c55d576f32da02f033117041f8

/-- Embedding of `EthExecutionStrategy::execute_transaction` (`execute.rs` lines
219-270).  The abstract EVM capability's answer for this transaction is passed in as
`evm_result` (`.error` for an EVM-level failure of `transact`, `.ok` for a completed
execution, reverted or not).  On success the returned pair is the updated accumulator
and the gas the EVM reported, exactly the `Ok(gas_used)` of the source. -/
def execute_transaction (block_gas_limit : ℕ) (st : ExecState) (tx : Transaction)
    (evm_result : Except Unit EvmOutcome) :
    Except BlockExecutionError (ExecState × ℕ) :=
  let block_available_gas := block_gas_limit - st.gas_used
  if tx.gas_limit > block_available_gas then
    .error (.TransactionGasLimitMoreThanAvailableBlockGas tx.gas_limit block_available_gas)
  else
    let is_system_transaction := (is_impersonated_tx tx.signature tx.gas_price).isSome
    match evm_result with
    | .error _ => .error (.evm tx.tx_hash)
    | .ok result =>
      let gas_used := result.gas_used
      let gas_total :=
        if !is_system_transaction then st.gas_used + gas_used else st.gas_used
      let gas_total := if tx.tx_hash = HOTFIX_TX_HASH then 22768 else gas_total
      let receipt : Receipt :=
        { tx_type := tx.tx_type
          success := result.success
          cumulative_gas_used := gas_total
          logs := result.logs }
      .ok ({ gas_used := gas_total, receipts := st.receipts ++ [receipt] }, gas_used)

/-- The sequential transaction loop: repeated `execute_transaction` calls over the
block's transactions, each paired with the outcome the abstract EVM reports for it,
failing fast on the first error. -/
def execute_transactions (block_gas_limit : ℕ) (st : ExecState) :
    List (Transaction × EvmOutcome) → Except BlockExecutionError ExecState
  | [] => .ok st
  | (tx, outcome) :: rest =>
    match execute_transaction block_gas_limit st tx (.ok outcome) with
    | .error e => .error e
    | .ok (st1, _) => execute_transactions block_gas_limit st1 rest

/-- The gas a transaction contributes to the running block total: its reported gas
unless it is a system-impersonation transaction. -/
def nonSystemGas (p : Transaction × EvmOutcome) : ℕ :=
  if (is_impersonated_tx p.1.signature p.1.gas_price).isSome then 0 else p.2.gas_used

/-- Total gas contributed by the non-system transactions of a list. -/
def nonSystemGasTotal (txs : List (Transaction × EvmOutcome)) : ℕ :=
  (txs.map nonSystemGas).sum

/-- The cumulative-gas values the loop records, one per transaction, starting from a
running total `acc`. -/
def cumulativesFrom (acc : ℕ) : List (Transaction × EvmOutcome) → List ℕ
  | [] => []
  | p :: rest => (acc + nonSystemGas p) :: cumulativesFrom (acc + nonSystemGas p) rest

/-- Modelled from the spec: the state-handle operation "drain-and-zero(list) → total"
(spec section 3, State handle), realised in the source by `State::drain_balances`, which
lives outside `src/`.  Each listed account's balance is read out in order and then set
to zero; the list of drained amounts is returned with the updated balance map. -/
def drain_balances (balances : ℕ → ℕ) : List ℕ → ((ℕ → ℕ) × List ℕ)
  | [] => (balances, [])
  | account :: rest =>
    let drained := balances account
    let balances1 := fun a => if a = account then 0 else balances a
    let result := drain_balances balances1 rest
    (result.1, drained :: result.2)

/-- Embedding of the DAO irregular-state-change step of
`EthExecutionStrategy::apply_post_execution_changes` (`execute.rs` lines 299-312): when
the DAO hard fork transitions at this block number, drain the balances of the fixed
account list, and add their sum to the beneficiary's pending balance increment; at any
other block the step does nothing.  The fixed account list and beneficiary
(`DAO_HARDFORK_ACCOUNTS`, `DAO_HARDFORK_BENEFICIARY`, from the `dao_fork` module not
under `src/`) are parameters. -/
def dao_irregular_state_change (spec : ChainSpec) (block_number : ℕ)
    (accounts : List ℕ) (beneficiary : ℕ)
    (balances : ℕ → ℕ) (balance_increments : ℕ → ℕ) : (ℕ → ℕ) × (ℕ → ℕ) :=
  if spec.dao_transitions_at_block block_number then
    let drained := drain_balances balances accounts
    let drained_balance := drained.2.sum
    (drained.1,
     fun a => if a = beneficiary then balance_increments a + drained_balance
              else balance_increments a)
  else
    (balances, balance_increments)

/-- The balance phase of `apply_post_execution_changes` (`execute.rs` lines 292-317):
the DAO irregular state change runs first, then every pending increment is applied to
the balance map. -/
def apply_post_execution_balance_changes (spec : ChainSpec) (block_number : ℕ)
    (accounts : List ℕ) (beneficiary : ℕ)
    (balances : ℕ → ℕ) (balance_increments : ℕ → ℕ) : ℕ → ℕ :=
  let stepped :=
    dao_irregular_state_change spec block_number accounts beneficiary
      balances balance_increments
  fun a => stepped.1 a + stepped.2 a

/-- The fields of a `PooledTransaction` read by signer recovery: the signature, the
declared gas price, and the hash of the unsigned payload (the `signature_hash` /
`keccak256(encode_for_signing(..))` value, kept abstract). -/
structure PooledTransaction where
  signature : Signature
  gas_price : Option ℕ
  signature_hash : ℕ
  deriving DecidableEq

/-- The opaque `RecoveryError` of `signed.rs`. -/
inductive RecoveryError where
  | recoveryFailed
  deriving DecidableEq

/-- Embedding of `SignedTransaction::recover_signer` for `PooledTransaction`
(`signed.rs` lines 186-189): ordinary low-s-enforcing ECDSA recovery of the signature
over the signing hash, with no impersonation handling.  The cryptographic primitive
`recover_signer` of `crate::crypto::secp256k1` is the abstract capability
`ec_recover`. -/
def recover_signer (ec_recover : ℕ → Signature → Except RecoveryError ℕ)
    (tx : PooledTransaction) : Except RecoveryError ℕ :=
  ec_recover tx.signature_hash tx.signature

/-- Embedding of `SignedTransaction::recover_signer_unchecked` (`signed.rs` lines
101-106, identically guarded in `recover_signer_unchecked_with_buf`, lines 191-208):
if the transaction matches the impersonation pattern the attributed address is returned
directly, bypassing ECDSA recovery; otherwise the non-low-s-enforcing primitive
(abstract capability `ec_recover_unchecked`) runs on the signing hash. -/
def recover_signer_unchecked
    (ec_recover_unchecked : ℕ → Signature → Except RecoveryError ℕ)
    (tx : PooledTransaction) : Except RecoveryError ℕ :=
  match is_impersonated_tx tx.signature tx.gas_price with
  | some address => .ok address
  | none => ec_recover_unchecked tx.signature_hash tx.signature

/-- Embedding of `from_block_with_tx_hashes` (`rpc-types-compat/src/block.rs` lines
37-61), restricted to its transaction list: in HL-node-compliant mode (the
`HL_NODE_COMPLIANT` environment variable is set; passed in as `hl_node_compliant`)
transactions with a declared gas price of zero are filtered out, then the hashes are
collected in block order. -/
def from_block_with_tx_hashes (hl_node_compliant : Bool) (txs : List Transaction) :
    List ℕ :=
  (txs.filter fun tx =>
    if hl_node_compliant then !(tx.gas_price == some 0) else true).map
    (fun tx => tx.tx_hash)

/-- Embedding of `from_block_full` (`rpc-types-compat/src/block.rs` lines 69-115),
restricted to its transaction list: the same gas-price filter, then each surviving
transaction is numbered by its post-filter index and handed to the response builder
(`tx_resp_builder.fill`, the abstract capability `fill`), failing fast on a builder
error. -/
def from_block_full {α : Type} (hl_node_compliant : Bool)
    (fill : Transaction → ℕ → Except Unit α) (txs : List Transaction) :
    Except Unit (List α) :=
  ((txs.filter fun tx =>
      if hl_node_compliant then !(tx.gas_price == some 0) else true).enum).mapM
    (fun p => fill p.2 p.1)

/-- C1: the claim says the gas-limit check of `validate_header_against_parent` accepts
iff the child limit is at least `MINIMUM_GAS_LIMIT` and differs from the parent limit by
at most `parent / GAS_LIMIT_BOUND_DIVISOR`, rejecting bound violations with the specific
increase/decrease error.  The source dropped the difference bound: at parent limit 10240
and child limit 10251 (the in-file test `test_invalid_gas_limit_increase_exceeding_limit`
expects the invalid-increase error here) the code accepts, while the rule the claim and
the code's own doc comment and tests state rejects with the invalid-increase error. -/
theorem C1_gas_limit_bound_check_dropped :
    validate_against_parent_gas_limit { baseHeader with gas_limit := 10251 }
      { baseHeader with gas_limit := 10240 } = .ok () ∧
    spec_gas_limit_rule 10240 10251 =
      .error (.GasLimitInvalidIncrease 10240 10251) := by
  decide

/-- C2 counterexample: at `s = 1` (with `r = 1`, parity flag set, zero gas price) the
attributed sender is `NATIVE_TOKEN_SYSTEM_ADDRESS`, not the low 160 bits of `s`
(which would be address `1`), so the claim's "for every value of s" fails. -/
theorem C2_counterexample :
    is_impersonated_tx ⟨1, 1, true⟩ (some 0) = some NATIVE_TOKEN_SYSTEM_ADDRESS ∧
    NATIVE_TOKEN_SYSTEM_ADDRESS ≠ 1 % U160_MOD := by
  decide

/-- C2 (amended): for a transaction matching the impersonation pattern, when `s ≠ 1` the
attributed sender is the low 160 bits of `s` reduced modulo `2^160`; when `s = 1` it is
the fixed `NATIVE_TOKEN_SYSTEM_ADDRESS`. -/
theorem C2_impersonated_sender (sig : Signature) (gas_price : Option ℕ)
    (hr : sig.r = 1) (hv : sig.v = true) (hg : gas_price = some 0) :
    (sig.s ≠ 1 → is_impersonated_tx sig gas_price = some (sig.s % U160_MOD)) ∧
    (sig.s = 1 → is_impersonated_tx sig gas_price = some NATIVE_TOKEN_SYSTEM_ADDRESS) := by
  unfold is_impersonated_tx
  rw [if_pos ⟨hr, hv, hg⟩]
  constructor
  · intro hs
    rw [if_neg hs]
  · intro hs
    rw [if_pos hs]

/-- C2 witness: at `s = 2^160 + 7` the attributed sender is address `7`. -/
theorem C2_witness :
    is_impersonated_tx ⟨1, 2 ^ 160 + 7, true⟩ (some 0) =
      some ((2 ^ 160 + 7) % U160_MOD) :=
  (C2_impersonated_sender ⟨1, 2 ^ 160 + 7, true⟩ (some 0) rfl rfl rfl).1 (by decide)

/-- A successful `execute_transaction` call on a transaction that is not subject to the
hash-keyed hotfix advances the running gas counter by exactly the transaction's
non-system gas contribution and appends one receipt carrying the new counter. -/
theorem execute_transaction_ok_no_hotfix (block_gas_limit : ℕ) (st : ExecState)
    (tx : Transaction) (outcome : EvmOutcome) (st1 : ExecState) (g : ℕ)
    (hhash : tx.tx_hash ≠ HOTFIX_TX_HASH)
    (hrun : execute_transaction block_gas_limit st tx (.ok outcome) = .ok (st1, g)) :
    st1.gas_used = st.gas_used + nonSystemGas (tx, outcome) ∧
    st1.receipts = st.receipts ++
      [{ tx_type := tx.tx_type, success := outcome.success,
         cumulative_gas_used := st1.gas_used, logs := outcome.logs }] := by
  unfold execute_transaction at hrun
  by_cases hg : tx.gas_limit > block_gas_limit - st.gas_used
  · rw [if_pos hg] at hrun
    exact absurd hrun (by simp)
  · rw [if_neg hg] at hrun
    simp only [if_neg hhash, Except.ok.injEq, Prod.mk.injEq] at hrun
    obtain ⟨hst, -⟩ := hrun
    subst hst
    cases hsys : (is_impersonated_tx tx.signature tx.gas_price).isSome <;>
      simp [nonSystemGas, hsys]

/-- A successful hotfix-free run of the transaction loop appends exactly the cumulative
gas values of `cumulativesFrom` and advances the counter by the non-system total. -/
theorem execute_transactions_receipts_no_hotfix (block_gas_limit : ℕ) :
    ∀ (txs : List (Transaction × EvmOutcome)) (st st1 : ExecState),
      (∀ p ∈ txs, p.1.tx_hash ≠ HOTFIX_TX_HASH) →
      execute_transactions block_gas_limit st txs = .ok st1 →
      st1.receipts.map Receipt.cumulative_gas_used =
        st.receipts.map Receipt.cumulative_gas_used ++ cumulativesFrom st.gas_used txs ∧
      st1.gas_used = st.gas_used + nonSystemGasTotal txs := by
  intro txs
  induction txs with
  | nil =>
    intro st st1 _ hrun
    simp only [execute_transactions, Except.ok.injEq] at hrun
    subst hrun
    simp [cumulativesFrom, nonSystemGasTotal]
  | cons p rest ih =>
    intro st st1 hh hrun
    obtain ⟨tx, outcome⟩ := p
    simp only [execute_transactions] at hrun
    cases hp : execute_transaction block_gas_limit st tx (.ok outcome) with
    | error e => rw [hp] at hrun; simp at hrun
    | ok pr =>
      rw [hp] at hrun
      obtain ⟨st2, g⟩ := pr
      have hchar := execute_transaction_ok_no_hotfix block_gas_limit st tx outcome st2 g
        (hh (tx, outcome) (by simp)) hp
      have hrest := ih st2 st1 (fun q hq => hh q (by simp [hq])) hrun
      obtain ⟨hgas2, hrcpt2⟩ := hchar
      obtain ⟨hmap1, hgas1⟩ := hrest
      constructor
      · rw [hmap1, hrcpt2, hgas2]
        simp [cumulativesFrom, Nat.add_assoc]
      · rw [hgas1, hgas2]
        simp [nonSystemGasTotal, Nat.add_assoc]

/-- The first cumulative-gas value recorded from a running total `acc` is at least
`acc`. -/
theorem cumulativesFrom_head_le (txs : List (Transaction × EvmOutcome)) (acc : ℕ) :
    ∀ x ∈ (cumulativesFrom acc txs).head?, acc ≤ x := by
  cases txs with
  | nil => simp [cumulativesFrom]
  | cons p rest => simp [cumulativesFrom]

/-- The cumulative-gas values recorded by the loop are non-decreasing. -/
theorem cumulativesFrom_chain (txs : List (Transaction × EvmOutcome)) :
    ∀ acc, List.Chain' (· ≤ ·) (cumulativesFrom acc txs) := by
  induction txs with
  | nil => intro acc; simp [cumulativesFrom]
  | cons p rest ih =>
    intro acc
    rw [cumulativesFrom, List.chain'_cons']
    refine ⟨?_, ih _⟩
    intro x hx
    exact cumulativesFrom_head_le rest (acc + nonSystemGas p) x hx

/-- The `i`-th cumulative-gas value is the running total plus the non-system gas of the
first `i + 1` transactions. -/
theorem cumulativesFrom_getElem (txs : List (Transaction × EvmOutcome)) :
    ∀ (acc i : ℕ), i < txs.length →
      (cumulativesFrom acc txs)[i]? =
        some (acc + nonSystemGasTotal (txs.take (i + 1))) := by
  induction txs with
  | nil => intro acc i hi; simp at hi
  | cons p rest ih =>
    intro acc i hi
    cases i with
    | zero => simp [cumulativesFrom, nonSystemGasTotal]
    | succ j =>
      rw [cumulativesFrom]
      simp only [List.getElem?_cons_succ]
      rw [ih (acc + nonSystemGas p) j (by simpa using hi)]
      simp [nonSystemGasTotal, Nat.add_assoc]

/-- One cumulative-gas value is recorded per executed transaction. -/
theorem cumulativesFrom_length (txs : List (Transaction × EvmOutcome)) :
    ∀ acc, (cumulativesFrom acc txs).length = txs.length := by
  induction txs with
  | nil => intro acc; simp [cumulativesFrom]
  | cons p rest ih => intro acc; simp [cumulativesFrom, ih]

/-- C3 counterexample: the hash-keyed hotfix of `execute_transaction` forcibly sets the
running counter to 22768, so in a block whose first (non-system) transaction uses 30000
gas and whose second transaction carries the hotfix hash, the recorded cumulative gas
values are `[30000, 22768]`: they decrease, and the final value differs from the
running non-system total `30000 + 100`.  The claim as stated (for every block
execution) is therefore false. -/
theorem C3_counterexample :
    (execute_transactions 10000000 { gas_used := 0, receipts := [] }
        [({ signature := ⟨0, 0, false⟩, gas_price := some 5, gas_limit := 50000,
            tx_hash := 1, tx_type := 0 },
          { gas_used := 30000, success := true, logs := [] }),
         ({ signature := ⟨0, 0, false⟩, gas_price := some 5, gas_limit := 50000,
            tx_hash := HOTFIX_TX_HASH, tx_type := 0 },
          { gas_used := 100, success := true, logs := [] })]).map
      (fun st => st.receipts.map Receipt.cumulative_gas_used) = .ok [30000, 22768] ∧
    ¬ (30000 ≤ 22768) ∧ (30000 : ℕ) + 100 ≠ 22768 := by
  decide

/-- C3 (amended): across the receipts of a block execution none of whose transactions
carries the hard-coded hotfix hash, `cumulative_gas_used` is non-decreasing from one
receipt to the next, and after each transaction it equals the running total of gas used
by the non-system transactions executed so far. -/
theorem C3_receipt_gas_invariant (block_gas_limit : ℕ)
    (txs : List (Transaction × EvmOutcome)) (st1 : ExecState)
    (hh : ∀ p ∈ txs, p.1.tx_hash ≠ HOTFIX_TX_HASH)
    (hrun : execute_transactions block_gas_limit { gas_used := 0, receipts := [] } txs =
      .ok st1) :
    List.Chain' (· ≤ ·) (st1.receipts.map Receipt.cumulative_gas_used) ∧
    ∀ i < st1.receipts.length,
      (st1.receipts.map Receipt.cumulative_gas_used)[i]? =
        some (nonSystemGasTotal (txs.take (i + 1))) := by
  obtain ⟨hmap, -⟩ :=
    execute_transactions_receipts_no_hotfix block_gas_limit txs
      { gas_used := 0, receipts := [] } st1 hh hrun
  simp only [List.map_nil, List.nil_append] at hmap
  constructor
  · rw [hmap]
    exact cumulativesFrom_chain txs 0
  · intro i hi
    have hlen : st1.receipts.length = txs.length := by
      have := congrArg List.length hmap
      simpa [cumulativesFrom_length] using this
    rw [hmap, cumulativesFrom_getElem txs 0 i (hlen ▸ hi), Nat.zero_add]

/-- C3 witness: a hotfix-free two-transaction block (one system transaction reporting
50 gas, one ordinary transaction reporting 30 gas) records the non-decreasing
cumulative values `[0, 30]`. -/
theorem C3_witness :
    List.Chain' (· ≤ ·)
      (({ gas_used := 30,
          receipts :=
            [{ tx_type := 0, success := true, cumulative_gas_used := 0, logs := [] },
             { tx_type := 0, success := true, cumulative_gas_used := 30, logs := [] }] } :
          ExecState).receipts.map Receipt.cumulative_gas_used) :=
  (C3_receipt_gas_invariant 100000
    [({ signature := ⟨1, 5, true⟩, gas_price := some 0, gas_limit := 1000,
        tx_hash := 2, tx_type := 0 },
      { gas_used := 50, success := true, logs := [] }),
     ({ signature := ⟨0, 0, false⟩, gas_price := some 7, gas_limit := 1000,
        tx_hash := 3, tx_type := 0 },
      { gas_used := 30, success := true, logs := [] })] _ (by decide) (by decide)).1

/-- C4 counterexample: a system-impersonation transaction whose hash equals the
hard-coded hotfix hash sets the running counter from 0 to 22768, so executing it does
increase `gas_used`; the claim as stated (for every system transaction) is false. -/
theorem C4_counterexample :
    (is_impersonated_tx ⟨1, 5, true⟩ (some 0)).isSome = true ∧
    (execute_transaction 10000000 { gas_used := 0, receipts := [] }
        { signature := ⟨1, 5, true⟩, gas_price := some 0, gas_limit := 50000,
          tx_hash := HOTFIX_TX_HASH, tx_type := 0 }
        (.ok { gas_used := 100, success := true, logs := [] })).map
      (fun p => p.1.gas_used) = .ok 22768 ∧
    (0 : ℕ) < 22768 := by
  decide

/-- C4 (amended): executing a system-impersonation transaction whose hash is not the
hard-coded hotfix hash leaves the strategy's running `gas_used` counter unchanged,
regardless of the gas consumption the EVM reports for it. -/
theorem C4_system_tx_gas_exempt (block_gas_limit : ℕ) (st : ExecState)
    (tx : Transaction) (outcome : EvmOutcome) (st1 : ExecState) (g : ℕ)
    (hsys : (is_impersonated_tx tx.signature tx.gas_price).isSome = true)
    (hhash : tx.tx_hash ≠ HOTFIX_TX_HASH)
    (hrun : execute_transaction block_gas_limit st tx (.ok outcome) = .ok (st1, g)) :
    st1.gas_used = st.gas_used := by
  unfold execute_transaction at hrun
  by_cases hg : tx.gas_limit > block_gas_limit - st.gas_used
  · rw [if_pos hg] at hrun
    exact absurd hrun (by simp)
  · rw [if_neg hg] at hrun
    simp only [hsys, Bool.not_true, if_neg hhash, Bool.false_eq_true, if_false,
      Except.ok.injEq, Prod.mk.injEq] at hrun
    obtain ⟨hst, -⟩ := hrun
    rw [← hst]

/-- C4 witness: a non-hotfix system transaction reporting 100 gas leaves the counter at
its prior value 0. -/
theorem C4_witness :
    ({ gas_used := 0,
       receipts := [{ tx_type := 0, success := true, cumulative_gas_used := 0,
                      logs := [] }] } : ExecState).gas_used =
      ({ gas_used := 0, receipts := [] } : ExecState).gas_used :=
  C4_system_tx_gas_exempt 10000000 { gas_used := 0, receipts := [] }
    { signature := ⟨1, 5, true⟩, gas_price := some 0, gas_limit := 50000,
      tx_hash := 9, tx_type := 0 }
    { gas_used := 100, success := true, logs := [] } _ 100
    (by decide) (by decide) (by decide)

/-- C6: `execute_transaction` returns the fatal
`TransactionGasLimitMoreThanAvailableBlockGas` error, carrying the transaction's gas
limit and the remaining block gas, iff the transaction's gas limit exceeds
`block_gas_limit - gas_used_so_far` (and every error of that shape arises only so);
when the guard passes and the EVM reports a completed execution, the call succeeds and
records the EVM outcome's success flag in the appended receipt, so an execution-level
failure such as a revert does not abort the block. -/
theorem C6_gas_limit_guard (block_gas_limit : ℕ) (st : ExecState) (tx : Transaction)
    (res : Except Unit EvmOutcome) :
    (execute_transaction block_gas_limit st tx res =
        .error (.TransactionGasLimitMoreThanAvailableBlockGas tx.gas_limit
          (block_gas_limit - st.gas_used)) ↔
      tx.gas_limit > block_gas_limit - st.gas_used) ∧
    (∀ a b, execute_transaction block_gas_limit st tx res =
        .error (.TransactionGasLimitMoreThanAvailableBlockGas a b) →
      tx.gas_limit > block_gas_limit - st.gas_used) ∧
    (∀ r, res = .ok r → tx.gas_limit ≤ block_gas_limit - st.gas_used →
      ∃ st1, execute_transaction block_gas_limit st tx res = .ok (st1, r.gas_used) ∧
        st1.receipts = st.receipts ++
          [{ tx_type := tx.tx_type, success := r.success,
             cumulative_gas_used := st1.gas_used, logs := r.logs }]) := by
  unfold execute_transaction
  by_cases hg : tx.gas_limit > block_gas_limit - st.gas_used
  · rw [if_pos hg]
    refine ⟨⟨fun _ => hg, fun _ => rfl⟩, fun a b _ => hg, ?_⟩
    intro r _ hle
    exact absurd hg (not_lt.mpr hle)
  · rw [if_neg hg]
    refine ⟨⟨?_, fun hgt => absurd hgt hg⟩, ?_, ?_⟩
    · intro hcontra
      cases res with
      | error e => simp at hcontra
      | ok r => simp at hcontra
    · intro a b hcontra
      cases res with
      | error e => simp at hcontra
      | ok r => simp at hcontra
    · intro r hr _
      subst hr
      exact ⟨_, rfl, rfl⟩

/-- C6 witness: a transaction declaring a 500000 gas limit against 200000 available
block gas is rejected with the fatal error carrying exactly those two values. -/
theorem C6_witness :
    execute_transaction 200000 { gas_used := 0, receipts := [] }
        { signature := ⟨0, 0, false⟩, gas_price := none, gas_limit := 500000,
          tx_hash := 2, tx_type := 0 }
        (.ok { gas_used := 0, success := true, logs := [] }) =
      .error (.TransactionGasLimitMoreThanAvailableBlockGas 500000 200000) :=
  (C6_gas_limit_guard 200000 { gas_used := 0, receipts := [] }
    { signature := ⟨0, 0, false⟩, gas_price := none, gas_limit := 500000,
      tx_hash := 2, tx_type := 0 }
    (.ok { gas_used := 0, success := true, logs := [] })).1.mpr (by decide)

/-- C5 counterexample: a post-transition header with difficulty 0, an absent nonce, the
canonical empty-ommers hash and valid extra-data is rejected with the nonce error,
because the source requires `nonce().is_some_and(|n| n.is_zero())`; the claim's "a
header whose nonce is absent passes the nonce check" is false. -/
theorem C5_counterexample :
    validate_header_with_total_difficulty
      ⟨fun _ => true, fun _ => true, fun _ => true, fun _ => true, fun _ => some true,
       fun _ => false⟩
      { baseHeader with ommers_hash := EMPTY_OMMER_ROOT_HASH } 0 =
      .error .TheMergeNonceIsNotZero := by
  decide

/-- C5 (amended): for every header at or after the proof-of-stake transition,
`validate_header_with_total_difficulty` rejects non-zero difficulty with the difficulty
error, and accepts exactly the headers with difficulty zero, a present and zero nonce
(an absent nonce is rejected), the canonical empty-ommers hash and valid extra-data
size. -/
theorem C5_post_merge_header_checks (spec : ChainSpec) (h : Header)
    (present_timestamp : ℕ) (hpm : is_post_merge spec h = true) :
    (h.difficulty ≠ 0 →
      validate_header_with_total_difficulty spec h present_timestamp =
        .error .TheMergeDifficultyIsNotZero) ∧
    (validate_header_with_total_difficulty spec h present_timestamp = .ok () ↔
      (h.difficulty = 0 ∧ h.nonce = some 0 ∧ h.ommers_hash = EMPTY_OMMER_ROOT_HASH ∧
       h.extra_data_len ≤ MAXIMUM_EXTRA_DATA_SIZE)) := by
  unfold validate_header_with_total_difficulty
  rw [if_pos hpm]
  constructor
  · intro hd
    rw [if_pos hd]
  · by_cases hd : h.difficulty = 0
    · by_cases hn : h.nonce = some 0
      · by_cases ho : h.ommers_hash = EMPTY_OMMER_ROOT_HASH
        · simp [validate_header_extra_data, hd, hn, ho, Nat.not_lt]
        · simp [hd, hn, ho]
      · cases hnn : h.nonce with
        | none => simp [hd, hnn]
        | some k =>
          have hk : k ≠ 0 := by
            intro hk0
            exact hn (by rw [hnn, hk0])
          simp [hd, hnn, hk]
    · simp [hd]

/-- C5 witness: a post-transition header with difficulty 0, nonce 0, the canonical
empty-ommers hash and empty extra-data passes. -/
theorem C5_witness :
    validate_header_with_total_difficulty
      ⟨fun _ => true, fun _ => true, fun _ => true, fun _ => true, fun _ => some true,
       fun _ => false⟩
      { baseHeader with nonce := some 0, ommers_hash := EMPTY_OMMER_ROOT_HASH } 0 =
      .ok () :=
  (C5_post_merge_header_checks
    ⟨fun _ => true, fun _ => true, fun _ => true, fun _ => true, fun _ => some true,
     fun _ => false⟩
    { baseHeader with nonce := some 0, ommers_hash := EMPTY_OMMER_ROOT_HASH } 0
    (by decide)).2.mpr (by decide)

/-- Draining a duplicate-free account list returns exactly the accounts' prior
balances in list order, zeroes each listed account, and leaves every other account's
balance unchanged. -/
theorem drain_balances_spec (accounts : List ℕ) :
    ∀ (balances : ℕ → ℕ), accounts.Nodup →
      (drain_balances balances accounts).2 = accounts.map balances ∧
      (∀ a ∈ accounts, (drain_balances balances accounts).1 a = 0) ∧
      (∀ a ∉ accounts, (drain_balances balances accounts).1 a = balances a) := by
  induction accounts with
  | nil =>
    intro balances _
    refine ⟨rfl, ?_, ?_⟩
    · intro a ha; simp at ha
    · intro a _; rfl
  | cons account rest ih =>
    intro balances hnd
    obtain ⟨hnotin, hndr⟩ := List.nodup_cons.mp hnd
    obtain ⟨ih1, ih2, ih3⟩ := ih (fun x => if x = account then 0 else balances x) hndr
    have hfst : (drain_balances balances (account :: rest)).1 =
        (drain_balances (fun x => if x = account then 0 else balances x) rest).1 := rfl
    have hsnd : (drain_balances balances (account :: rest)).2 =
        balances account ::
          (drain_balances (fun x => if x = account then 0 else balances x) rest).2 := rfl
    refine ⟨?_, ?_, ?_⟩
    · rw [hsnd, List.map_cons]
      congr 1
      rw [ih1]
      exact List.map_congr_left (fun a ha => by
        have hne : a ≠ account := fun he => hnotin (he ▸ ha)
        simp [hne])
    · intro a ha
      rw [hfst]
      rcases List.mem_cons.mp ha with h1 | h2
      · subst h1
        rw [ih3 a hnotin]
        simp
      · exact ih2 a h2
    · intro a ha
      have ha1 : a ≠ account := fun he => ha (he ▸ List.mem_cons_self account rest)
      have ha2 : a ∉ rest := fun hm => ha (List.mem_cons_of_mem account hm)
      rw [hfst, ih3 a ha2]
      simp [ha1]

/-- C7: exactly at the block where the DAO hard fork transitions, the irregular state
change zeroes each account of the (duplicate-free) drained list, leaves every other
balance untouched, credits the beneficiary's pending increment with exactly the sum of
the drained balances, changes no other address's increment — and at every other block
the step changes nothing. -/
theorem C7_dao_irregular_transfer (spec : ChainSpec) (block_number : ℕ)
    (accounts : List ℕ) (beneficiary : ℕ) (balances balance_increments : ℕ → ℕ)
    (hnd : accounts.Nodup) :
    (spec.dao_transitions_at_block block_number = true →
      (∀ a ∈ accounts,
        (dao_irregular_state_change spec block_number accounts beneficiary balances
          balance_increments).1 a = 0) ∧
      (∀ a ∉ accounts,
        (dao_irregular_state_change spec block_number accounts beneficiary balances
          balance_increments).1 a = balances a) ∧
      ((dao_irregular_state_change spec block_number accounts beneficiary balances
          balance_increments).2 beneficiary =
        balance_increments beneficiary + (accounts.map balances).sum) ∧
      (∀ a, a ≠ beneficiary →
        (dao_irregular_state_change spec block_number accounts beneficiary balances
          balance_increments).2 a = balance_increments a)) ∧
    (spec.dao_transitions_at_block block_number = false →
      dao_irregular_state_change spec block_number accounts beneficiary balances
        balance_increments = (balances, balance_increments)) := by
  obtain ⟨hd2, hd0, hd1⟩ := drain_balances_spec accounts balances hnd
  constructor
  · intro htrans
    unfold dao_irregular_state_change
    rw [if_pos htrans]
    refine ⟨fun a ha => hd0 a ha, fun a ha => hd1 a ha, ?_, ?_⟩
    · simp [hd2]
    · intro a ha
      simp [ha]
  · intro htrans
    unfold dao_irregular_state_change
    rw [if_neg (by simp [htrans])]

/-- C7 witness: at the transition block, draining accounts 3 and 4 (balances 3 and 4)
zeroes account 3 and credits the beneficiary's increment 10 with the drained sum 7. -/
theorem C7_witness :
    (dao_irregular_state_change
        ⟨fun _ => false, fun _ => false, fun _ => false, fun _ => false, fun _ => none,
         fun n => n == 1920000⟩
        1920000 [3, 4] 9 (fun a => a) (fun _ => 10)).1 3 = 0 ∧
    (dao_irregular_state_change
        ⟨fun _ => false, fun _ => false, fun _ => false, fun _ => false, fun _ => none,
         fun n => n == 1920000⟩
        1920000 [3, 4] 9 (fun a => a) (fun _ => 10)).2 9 = 17 := by
  have hres := (C7_dao_irregular_transfer
      ⟨fun _ => false, fun _ => false, fun _ => false, fun _ => false, fun _ => none,
       fun n => n == 1920000⟩
      1920000 [3, 4] 9 (fun a => a) (fun _ => 10) (by decide)).1 rfl
  exact ⟨hres.1 3 (by decide), (hres.2.2.1).trans (by decide)⟩

/-- C8: for every header passing the gas and base-fee checks, `validate_header`
succeeds only if the withdrawals root is present exactly when the withdrawals
(Shanghai) fork is active at the header's timestamp; a root absent while the fork is
active fails with `WithdrawalsRootMissing`, and a root present while it is inactive
fails with `WithdrawalsRootUnexpected`. -/
theorem C8_withdrawals_root_rule (spec : ChainSpec) (h : Header)
    (hgas : validate_header_gas h = .ok ())
    (hbase : validate_header_base_fee h spec = .ok ()) :
    (validate_header spec h = .ok () →
      (spec.is_shanghai_active_at_timestamp h.timestamp = true →
        h.withdrawals_root.isSome = true) ∧
      (spec.is_shanghai_active_at_timestamp h.timestamp = false →
        h.withdrawals_root = none)) ∧
    (spec.is_shanghai_active_at_timestamp h.timestamp = true →
      h.withdrawals_root = none →
      validate_header spec h = .error .WithdrawalsRootMissing) ∧
    (spec.is_shanghai_active_at_timestamp h.timestamp = false →
      h.withdrawals_root.isSome = true →
      validate_header spec h = .error .WithdrawalsRootUnexpected) := by
  unfold validate_header
  rw [hgas, hbase]
  refine ⟨?_, ?_, ?_⟩
  · intro hok
    constructor
    · intro hsh
      by_cases hw : h.withdrawals_root.isSome = true
      · exact hw
      · rw [if_pos (by simp_all [Option.not_isSome_iff_eq_none])] at hok
        simp at hok
    · intro hsh
      by_cases hw : h.withdrawals_root = none
      · exact hw
      · rw [if_neg (by simp [hsh]),
          if_pos (by simp_all [Option.isSome_iff_ne_none])] at hok
        simp at hok
  · intro hsh hw
    rw [if_pos (by simp [hsh, hw])]
  · intro hsh hw
    rw [if_neg (by simp [hsh]), if_pos (by simp [hsh, hw])]

/-- C8 witness: with Shanghai active and a well-formed header lacking a withdrawals
root, `validate_header` fails with the missing-withdrawals-root error. -/
theorem C8_witness :
    validate_header
      ⟨fun _ => true, fun _ => false, fun _ => false, fun _ => false, fun _ => none,
       fun _ => false⟩ baseHeader = .error .WithdrawalsRootMissing :=
  (C8_withdrawals_root_rule
    ⟨fun _ => true, fun _ => false, fun _ => false, fun _ => false, fun _ => none,
     fun _ => false⟩ baseHeader (by decide) (by decide)).2.1 rfl rfl

/-- C9: for every pooled transaction matching the impersonation pattern,
`recover_signer_unchecked` returns the impersonation-derived address without consulting
the ECDSA recovery capability, while `recover_signer` always defers to ordinary ECDSA
recovery with no impersonation handling, so for some such transaction the checked and
unchecked recoveries return different results. -/
theorem C9_unchecked_vs_checked_recovery (tx : PooledTransaction) (address : ℕ)
    (himp : is_impersonated_tx tx.signature tx.gas_price = some address) :
    (∀ ec_recover_unchecked,
      recover_signer_unchecked ec_recover_unchecked tx = .ok address) ∧
    (∀ ec_recover,
      recover_signer ec_recover tx = ec_recover tx.signature_hash tx.signature) ∧
    (∃ ec_recover ec_recover_unchecked,
      recover_signer ec_recover tx ≠
        recover_signer_unchecked ec_recover_unchecked tx) := by
  refine ⟨?_, fun _ => rfl, ?_⟩
  · intro ec
    unfold recover_signer_unchecked
    rw [himp]
  · refine ⟨fun _ _ => .error .recoveryFailed, fun _ _ => .error .recoveryFailed, ?_⟩
    unfold recover_signer recover_signer_unchecked
    rw [himp]
    simp

/-- C9 witness: an impersonated transaction with `s = 5` recovers (unchecked) to
address 5 even when the cryptographic capability would fail. -/
theorem C9_witness :
    recover_signer_unchecked (fun _ _ => .error .recoveryFailed)
      { signature := ⟨1, 5, true⟩, gas_price := some 0, signature_hash := 77 } =
      .ok 5 :=
  (C9_unchecked_vs_checked_recovery
    { signature := ⟨1, 5, true⟩, gas_price := some 0, signature_hash := 77 } 5
    (by decide)).1 _

/-- Mapping an always-successful builder over a list collects exactly the built values
in order. -/
theorem exceptMapM_ok {α β : Type} (g : α → Except Unit β) (f : α → β)
    (hg : ∀ a, g a = .ok (f a)) :
    ∀ (l : List α), l.mapM g = .ok (l.map f) := by
  intro l
  induction l with
  | nil => rfl
  | cons a rest ih =>
    rw [List.mapM_cons, hg a, ih]
    rfl

/-- With a builder that returns each transaction's hash, `from_block_full` produces
exactly the hashes of the gas-price-filtered transactions in block order. -/
theorem from_block_full_hash_fill (b : Bool) (txs : List Transaction) :
    from_block_full b (fun tx _ => .ok tx.tx_hash) txs =
      .ok ((txs.filter fun tx =>
        if b then !(tx.gas_price == some 0) else true).map (fun tx => tx.tx_hash)) := by
  unfold from_block_full
  refine (exceptMapM_ok _ (fun p : ℕ × Transaction => p.2.tx_hash) (fun p => rfl) _).trans ?_
  congr 1
  rw [show (fun p : ℕ × Transaction => p.2.tx_hash) =
        (fun tx : Transaction => tx.tx_hash) ∘ Prod.snd from rfl]
  rw [← List.map_map, List.enum_map_snd]

/-- C10: with `HL_NODE_COMPLIANT` unset both RPC conversions include every transaction
of the block in block order; with it set both omit exactly the transactions whose
declared gas price is zero — a class containing every impersonated system transaction,
since the impersonation pattern requires a zero gas price. -/
theorem C10_compliant_mode_filter (txs : List Transaction) (sig : Signature)
    (gp : Option ℕ) (himp : (is_impersonated_tx sig gp).isSome = true) :
    from_block_with_tx_hashes false txs = txs.map (fun tx => tx.tx_hash) ∧
    from_block_with_tx_hashes true txs =
      (txs.filter fun tx => !(tx.gas_price == some 0)).map (fun tx => tx.tx_hash) ∧
    from_block_full false (fun tx _ => .ok tx.tx_hash) txs =
      .ok (txs.map (fun tx => tx.tx_hash)) ∧
    from_block_full true (fun tx _ => .ok tx.tx_hash) txs =
      .ok ((txs.filter fun tx => !(tx.gas_price == some 0)).map
        (fun tx => tx.tx_hash)) ∧
    gp = some 0 := by
  refine ⟨?_, rfl, ?_, ?_, ?_⟩
  · unfold from_block_with_tx_hashes
    simp
  · rw [from_block_full_hash_fill]
    simp
  · rw [from_block_full_hash_fill]
    simp
  · unfold is_impersonated_tx at himp
    split at himp
    · next hcond => exact hcond.2.2
    · simp at himp

/-- C10 witness: in compliant mode a block with one ordinary transaction (hash 1) and
one zero-gas-price transaction (hash 2) reports only hash 1. -/
theorem C10_witness :
    from_block_with_tx_hashes true
      [{ signature := ⟨0, 0, false⟩, gas_price := some 7, gas_limit := 10,
         tx_hash := 1, tx_type := 0 },
       { signature := ⟨1, 5, true⟩, gas_price := some 0, gas_limit := 10,
         tx_hash := 2, tx_type := 0 }] = [1] :=
  ((C10_compliant_mode_filter
    [{ signature := ⟨0, 0, false⟩, gas_price := some 7, gas_limit := 10,
       tx_hash := 1, tx_type := 0 },
     { signature := ⟨1, 5, true⟩, gas_price := some 0, gas_limit := 10,
       tx_hash := 2, tx_type := 0 }] ⟨1, 5, true⟩ (some 0)
    (by decide)).2.1).trans (by decide)

end Nanoreth
